import Mathlib

/-!
Verification of the MoodSync catalog core (`app.py`).

The development embeds the data model and the operations of the single-file
application: the record store (`ensure_dataset`, `load_songs`, `save_song`),
the catalog seeder (`generate_language_rows`), the link resolver
(`youtube_search_link`), the query engine (`filter_songs`) and the two
request handlers whose behaviour the specification constrains (`home`'s
energy-bound parsing and `add_song`'s validation).

The durable CSV file is modelled as an abstract store: `none` stands for a
missing file, `some rows` for an existing readable file holding the listed
data rows.  Python's in-place `list.sort` is modelled by a stable insertion
sort together with an explicit description of the caller's list after the
call (`callerListAfter`); a stable sort by a fixed key is unique, so any
stable sort models CPython's timsort faithfully.
-/

namespace MoodSync

/-- An in-memory song record as handled by `load_songs`, `filter_songs` and
`generate_language_rows`: the `energy` field has already been resolved to an
integer. -/
structure Song where
  title : String
  artist : String
  mood : String
  energy : Int
  language : String
  link : String
  deriving Repr, DecidableEq

/-- A row as persisted in the CSV file: every cell is text, including the
`energy` cell, which holds whatever literal was written. -/
structure StoredRow where
  title : String
  artist : String
  mood : String
  energy : String
  language : String
  link : String
  deriving Repr, DecidableEq

/-- The abstract durable store: the sequence of data rows of `songs.csv`. -/
abbrev Store := List StoredRow

/-- The fixed closed mood set `MOODS` of `app.py`. -/
def MOODS : List String := ["Happy", "Sad", "Energetic", "Calm", "Focus"]

/-- The tracked language set `LANGUAGES` of `app.py`. -/
def LANGUAGES : List String := ["English", "Telugu", "Hindi", "Tamil", "Malayalam"]

/-- Truthiness of an optional string in Python: `None` and `""` are falsy. -/
def truthy : Option String → Bool
  | none => false
  | some s => !(s == "")

/-- Python `str.lower`, character-wise (ASCII case mapping). -/
def pyLower (s : String) : String := String.mk (s.toList.map Char.toLower)

/-- Python `str.strip()` with no argument: whitespace removed from both
ends. -/
def pyStrip (s : String) : String :=
  String.mk (((s.toList.dropWhile Char.isWhitespace).reverse.dropWhile
    Char.isWhitespace).reverse)

/-- Python `x or default` for an optional string form field. -/
def pyOr (x : Option String) (d : String) : String :=
  match x with
  | none => d
  | some s => if s = "" then d else s

/-- Value of a non-empty all-digit character run; `none` otherwise. -/
def digitsVal : List Char → Option Nat
  | [] => none
  | cs => cs.foldl
      (fun acc c =>
        match acc with
        | none => none
        | some n => if c.isDigit then some (n * 10 + (c.toNat - '0'.toNat)) else none)
      (some 0)

/-- Python `int(s)` on a string: surrounding whitespace is ignored, then an
optional sign followed by a non-empty run of decimal digits; anything else
raises `ValueError`, modelled as `none`. -/
def pyInt (s : String) : Option Int :=
  match (pyStrip s).toList with
  | '+' :: ds => (digitsVal ds).map (fun n => (n : Int))
  | '-' :: ds => (digitsVal ds).map (fun n => -(n : Int))
  | ds => (digitsVal ds).map (fun n => (n : Int))

/-- Python `str.capitalize`: first character uppercased, the remaining
characters lowercased (ASCII case mapping). -/
def pyCapitalize (s : String) : String :=
  match s.toList with
  | [] => ""
  | c :: cs => String.mk (c.toUpper :: cs.map Char.toLower)

/-- UTF-8 bytes of one code point. -/
def utf8Bytes (n : Nat) : List Nat :=
  if n < 128 then [n]
  else if n < 2048 then [192 + n / 64, 128 + n % 64]
  else if n < 65536 then [224 + n / 4096, 128 + n / 64 % 64, 128 + n % 64]
  else [240 + n / 262144, 128 + n / 4096 % 64, 128 + n / 64 % 64, 128 + n % 64]

/-- Uppercase hexadecimal digit. -/
def hexDigit (n : Nat) : Char :=
  if n < 10 then Char.ofNat ('0'.toNat + n) else Char.ofNat ('A'.toNat + n - 10)

/-- Percent-encoding of one byte, as produced by `urllib.parse.quote`. -/
def percentByte (b : Nat) : List Char := ['%', hexDigit (b / 16), hexDigit (b % 16)]

/-- Python `urllib.parse.quote_plus`: ASCII letters, digits and `_.-~` are
kept, spaces become `+`, every other character is percent-encoded byte-wise. -/
def quote_plus (s : String) : String :=
  String.mk (s.toList.flatMap (fun c =>
    if c.isAlphanum && decide (c.toNat < 128) then [c]
    else if c = '_' || c = '.' || c = '-' || c = '~' then [c]
    else if c = ' ' then ['+']
    else (utf8Bytes c.toNat).flatMap percentByte))

/-- `youtube_search_link(*parts)`: joins the truthy parts with spaces,
`quote_plus`-encodes the result and embeds it in the fixed results URL. -/
def youtube_search_link (parts : List String) : String :=
  "https://www.youtube.com/results?search_query=" ++
    quote_plus (String.intercalate " " (parts.filter (fun p => !(p == ""))))

/-- Python `f"{i:02d}"` for a natural number: zero-padded to width two. -/
def fmt2 (i : Nat) : String := if i < 10 then "0" ++ toString i else toString i

/-- The curated seed list `BASE_SAMPLE_ROWS`. -/
def BASE_SAMPLE_ROWS : List Song :=
  [⟨"On Top of the World", "Imagine Dragons", "Happy", 4, "English",
      "https://www.youtube.com/watch?v=w5tWYmIOWGk"⟩,
   ⟨"Counting Stars", "OneRepublic", "Happy", 4, "English",
      "https://www.youtube.com/watch?v=hT_nvWreIhg"⟩,
   ⟨"Someone Like You", "Adele", "Sad", 2, "English",
      "https://www.youtube.com/watch?v=hLQl3WQQoQ0"⟩,
   ⟨"Perfect", "Ed Sheeran", "Sad", 2, "English",
      "https://www.youtube.com/watch?v=2Vv-BfVoq4g"⟩,
   ⟨"Believer", "Imagine Dragons", "Energetic", 5, "English",
      "https://www.youtube.com/watch?v=7wtfhZwyrcc"⟩,
   ⟨"Levels", "Avicii", "Energetic", 5, "English",
      "https://www.youtube.com/watch?v=_ovdm2yX4MA"⟩,
   ⟨"Weightless", "Marconi Union", "Calm", 1, "English",
      "https://www.youtube.com/watch?v=UfcAVejslrU"⟩,
   ⟨"River Flows in You", "Yiruma", "Calm", 1, "Instrumental",
      "https://www.youtube.com/watch?v=7maJOI3QMu0"⟩,
   ⟨"Lofi Beats to Study", "Assorted", "Focus", 2, "Instrumental",
      "https://www.youtube.com/watch?v=jfKfPfyJRdk"⟩,
   ⟨"Rainy Night Study", "Assorted", "Focus", 2, "Instrumental",
      "https://www.youtube.com/watch?v=DWcJFNfaw9c"⟩]

/-- One generated placeholder row of `generate_language_rows` for 1-based
index `i`: the mood cycles over `MOODS` on index `i - 1` while the energy
cycles `1..5` on index `i`. -/
def generatedRow (language : String) (i : Nat) : Song :=
  let mood := MOODS.getD ((i - 1) % MOODS.length) ""
  { title := language ++ " " ++ mood ++ " Track " ++ fmt2 i
    artist := "Various"
    mood := mood
    energy := ((i % 5 : Nat) : Int) + 1
    language := language
    link := youtube_search_link [language, mood, "song"] }

/-- `generate_language_rows(language, count)`: the rows for `i = 1..count`. -/
def generate_language_rows (language : String) (count : Nat) : List Song :=
  (List.range count).map (fun k => generatedRow language (k + 1))

/-- How `csv.writer` persists an in-memory row: every cell is written as
text; the integer energy becomes its decimal literal. -/
def storeRow (s : Song) : StoredRow :=
  { title := s.title, artist := s.artist, mood := s.mood,
    energy := toString s.energy, language := s.language, link := s.link }

/-- The per-language count taken by `ensure_dataset` over an existing file:
exact string match on the `language` cell against a tracked language. -/
def countLang (lang : String) (rows : Store) : Nat :=
  rows.countP (fun r => r.language == lang)

/-- The language order used by the creation branch of `ensure_dataset`. -/
def SEED_ORDER : List String := ["Telugu", "Hindi", "Tamil", "Malayalam", "English"]

/-- The data rows written when the CSV file is first created: the curated
seed rows followed by generated filler for each language in `SEED_ORDER`. -/
def createdRows (minPer : Nat) : Store :=
  BASE_SAMPLE_ROWS.map storeRow ++
    (SEED_ORDER.map (fun lang => (generate_language_rows lang minPer).map storeRow)).flatten

/-- `ensure_dataset(min_per_language)` over the abstract store: a missing
file is created from scratch; an existing readable file has its per-language
counts verified and only the deficit appended at the end.  The
unreadable-file branch, which deletes the file and rebuilds it, is outside
this parsed-store embedding. -/
def ensure_dataset (minPer : Nat) (st : Option Store) : Store :=
  match st with
  | none => createdRows minPer
  | some rows =>
      let more := (LANGUAGES.map (fun lang =>
        if countLang lang rows < minPer then
          (generate_language_rows lang (minPer - countLang lang rows)).map storeRow
        else [])).flatten
      rows ++ more

/-- The in-memory song a stored row loads to: an unparseable energy cell is
repaired to the default `3`. -/
def loadedSong (r : StoredRow) : Song :=
  { title := r.title, artist := r.artist, mood := r.mood,
    energy := (pyInt r.energy).getD 3, language := r.language, link := r.link }

/-- One step of the `load_songs` loop: rows with an empty title or an empty
mood are silently skipped, every other row is loaded. -/
def loadRow (r : StoredRow) : Option Song :=
  if r.title = "" ∨ r.mood = "" then none else some (loadedSong r)

/-- `load_songs()`: first runs `ensure_dataset()` (default minimum 20), then
reads every row back.  Returns the durable store as it stands after the call
together with the loaded song list. -/
def load_songs (st : Option Store) : Store × List Song :=
  let rows := ensure_dataset 20 st
  (rows, rows.filterMap loadRow)

/-- `save_song(row)`: initializes the catalog via `ensure_dataset()` when the
file does not exist, then appends the single row at the end. -/
def save_song (r : Song) (st : Option Store) : Store :=
  (match st with
   | none => ensure_dataset 20 none
   | some rows => rows) ++ [storeRow r]

/-- Python's substring test `needle in hay`. -/
def strContains (hay needle : String) : Bool :=
  decide (needle.toList <:+: hay.toList)

/-- Clause 1 of `filter_songs`: case-insensitive mood filter, skipped when
the argument is falsy. -/
def moodStep (mood : Option String) (out : List Song) : List Song :=
  match mood with
  | none => out
  | some m => if m = "" then out else out.filter (fun s => pyLower s.mood == pyLower m)

/-- Clause 2 of `filter_songs`: case-insensitive language filter, skipped
when the argument is falsy or is the literal sentinel `"Any"`. -/
def languageStep (language : Option String) (out : List Song) : List Song :=
  match language with
  | none => out
  | some l =>
      if l = "" ∨ l = "Any" then out
      else out.filter (fun s => pyLower s.language == pyLower l)

/-- Clause 3 of `filter_songs`: lowercased substring search over title or
artist, skipped when the argument is falsy. -/
def qStep (q : Option String) (out : List Song) : List Song :=
  match q with
  | none => out
  | some qs =>
      if qs = "" then out
      else out.filter (fun s =>
        strContains (pyLower s.title) (pyLower qs) || strContains (pyLower s.artist) (pyLower qs))

/-- Clause 4 of `filter_songs`: minimum-energy filter, applied whenever the
argument is not `None`. -/
def eminStep (emin : Option Int) (out : List Song) : List Song :=
  match emin with
  | none => out
  | some v => out.filter (fun s => decide (v ≤ s.energy))

/-- Clause 5 of `filter_songs`: maximum-energy filter, applied whenever the
argument is not `None`. -/
def emaxStep (emax : Option Int) (out : List Song) : List Song :=
  match emax with
  | none => out
  | some v => out.filter (fun s => decide (s.energy ≤ v))

/-- The five sequential filter clauses of `filter_songs`, before the sort. -/
def filteredOut (songs : List Song) (mood language q : Option String)
    (emin emax : Option Int) : List Song :=
  emaxStep emax (eminStep emin (qStep q (languageStep language (moodStep mood songs))))

/-- Ascending-energy ordering used by the default sort branch. -/
def ascRel (a b : Song) : Prop := a.energy ≤ b.energy

/-- Descending-energy ordering used for the two high-energy moods. -/
def descRel (a b : Song) : Prop := b.energy ≤ a.energy

instance : DecidableRel ascRel :=
  fun a b => inferInstanceAs (Decidable (a.energy ≤ b.energy))

instance : DecidableRel descRel :=
  fun a b => inferInstanceAs (Decidable (b.energy ≤ a.energy))

instance : IsTotal Song ascRel := ⟨fun a b => Int.le_total a.energy b.energy⟩

instance : IsTrans Song ascRel := ⟨fun _ _ _ h1 h2 => le_trans h1 h2⟩

instance : IsTotal Song descRel := ⟨fun a b => Int.le_total b.energy a.energy⟩

instance : IsTrans Song descRel := ⟨fun _ _ _ h1 h2 => le_trans h2 h1⟩

/-- The case-sensitive test `mood in ("Energetic", "Happy")` that selects the
sort direction in `filter_songs`. -/
def moodHigh (mood : Option String) : Bool :=
  mood == some "Energetic" || mood == some "Happy"

/-- The final sort of `filter_songs`.  Python's `list.sort` is stable, and
`reverse=True` reverses the comparisons while keeping equal keys in input
order; a stable sort by a fixed key is unique, so a stable insertion sort
models it exactly. -/
def sortByMood (mood : Option String) (out : List Song) : List Song :=
  if moodHigh mood then List.insertionSort descRel out
  else List.insertionSort ascRel out

/-- `filter_songs(songs, mood, language, q, energy_min, energy_max)`: the
returned list. -/
def filter_songs (songs : List Song) (mood language q : Option String)
    (emin emax : Option Int) : List Song :=
  sortByMood mood (filteredOut songs mood language q emin emax)

/-- Whether at least one of the five filter clauses runs, which is exactly
when `out` is rebound to a freshly built list.  When no clause runs, `out`
still aliases the caller's list and the in-place sort mutates that list. -/
def anyFilterActive (mood language q : Option String) (emin emax : Option Int) : Bool :=
  truthy mood ||
    (truthy language && !(language == some "Any")) ||
    truthy q || emin.isSome || emax.isSome

/-- The caller's list object as observed after `filter_songs` returns:
unchanged when some clause built a fresh list, otherwise sorted in place.
Individual records are never written to by `filter_songs`. -/
def callerListAfter (songs : List Song) (mood language q : Option String)
    (emin emax : Option Int) : List Song :=
  if anyFilterActive mood language q emin emax then songs
  else filter_songs songs mood language q emin emax

/-- One conversion `int(x) if x else None` inside the guarded block of
`home`; the outer `none` models a raised `ValueError`. -/
def convArg (x : Option String) : Option (Option Int) :=
  match x with
  | none => some none
  | some s => if s = "" then some none else (pyInt s).map some

/-- The single `try/except ValueError` wrapped around both energy-bound
conversions in `home`: an exception raised by either conversion resets both
bounds to `None`. -/
def parseEnergyBounds (emin emax : Option String) : Option Int × Option Int :=
  match convArg emin with
  | none => (none, none)
  | some v1 =>
      match convArg emax with
      | none => (none, none)
      | some v2 => (v1, v2)

/-- The recommendation results computed by `home` before display shortening:
the filter pipeline runs only when a mood was supplied, and the result is
capped to the first 100 entries. -/
def homeResults (songs : List Song) (mood language q emin emax : Option String) :
    List Song :=
  if truthy mood then
    let b := parseEnergyBounds emin emax
    (filter_songs songs mood language q b.1 b.2).take 100
  else []

/-- The POST form of the add-song page; `none` models an absent field. -/
structure SongForm where
  title : Option String
  artist : Option String
  mood : Option String
  energy : Option String
  language : Option String
  link : Option String
  deriving Repr, DecidableEq

/-- Outcome of an add-song POST request. -/
inductive AddOutcome where
  | rejected
  | added
  deriving Repr, DecidableEq

/-- The POST branch of `add_song`: field normalization, validation, then
`save_song`.  Returns the durable store after the request together with the
outcome; a rejected submission redirects back without touching the store. -/
def add_song (f : SongForm) (st : Option Store) : Option Store × AddOutcome :=
  let title := pyStrip (pyOr f.title "")
  let artist := pyStrip (pyOr f.artist "Unknown")
  let mood := pyCapitalize (pyStrip (pyOr f.mood ""))
  let language := pyStrip (pyOr f.language "Unknown")
  let link0 := pyStrip (pyOr f.link "")
  let energy : Int :=
    match pyInt (pyOr f.energy "3") with
    | some e => min (max e 1) 5
    | none => 3
  if title = "" ∨ mood = "" ∨ mood ∉ MOODS then (st, .rejected)
  else
    let link :=
      if link0 = "" then youtube_search_link [title, artist, language, mood, "song"]
      else link0
    (some (save_song
        { title := title, artist := artist, mood := mood,
          energy := energy, language := language, link := link } st),
     .added)

/-! ### Concrete records used by counterexamples and witnesses -/

/-- A low-energy record used as concrete input. -/
def songLowE : Song :=
  { title := "Alpha", artist := "a", mood := "Calm", energy := 1,
    language := "English", link := "" }

/-- A high-energy record used as concrete input. -/
def songHighE : Song :=
  { title := "Beta", artist := "b", mood := "Calm", energy := 2,
    language := "English", link := "" }

/-! ### C1 — mutation of the caller's list -/

/-- C1 fails on the code: with every filter argument absent, `out` still
aliases the caller's list when `out.sort()` runs, so the caller's input list
is reordered in place; here `[songHighE, songLowE]` becomes sorted ascending
and differs from the original. -/
theorem c1_counterexample :
    callerListAfter [songHighE, songLowE] none none none none none ≠
      [songHighE, songLowE] := by
  decide

/-- C1 (amended): `filter_songs` never mutates an individual record (records
are only read), and whenever at least one filter clause is active — a truthy
mood, a truthy language other than `"Any"`, a truthy query, or a present
energy bound — the clause rebinds `out` to a fresh list, so the caller's
input list is left with the same elements in the same order.  Only when no
clause is active is the caller's list sorted in place. -/
theorem c1_input_unchanged_when_filter_active (songs : List Song)
    (mood language q : Option String) (emin emax : Option Int)
    (h : anyFilterActive mood language q emin emax = true) :
    callerListAfter songs mood language q emin emax = songs := by
  simp [callerListAfter, h]

/-- Witness for C1's amended theorem at a concrete active filter. -/
theorem c1_witness :
    anyFilterActive (some "Happy") none none none none = true ∧
      callerListAfter [songHighE, songLowE] (some "Happy") none none none none =
        [songHighE, songLowE] :=
  ⟨by decide,
   c1_input_unchanged_when_filter_active [songHighE, songLowE]
     (some "Happy") none none none none (by decide)⟩

/-! ### C9 — case-insensitive mood matching, pure filtering -/

/-- C9: mood matching is case-insensitive — `filter_songs` with
`mood="happy"` returns the same list, in the same order, as with
`mood="HAPPY"` — and the pipeline is pure: a second call on identical
arguments and an unchanged input yields the identical output (in this
functional embedding the second conjunct is definitional). -/
theorem c9_mood_case_insensitive_and_pure (songs : List Song)
    (language q : Option String) (emin emax : Option Int) :
    (filter_songs songs (some "happy") language q emin emax =
      filter_songs songs (some "HAPPY") language q emin emax) ∧
    (filter_songs songs (some "happy") language q emin emax =
      filter_songs songs (some "happy") language q emin emax) :=
  ⟨rfl, rfl⟩

/-! ### C10 — the "Any" language sentinel -/

/-- Membership in the output of the maximum-energy clause implies membership
in its input. -/
theorem mem_of_emaxStep {s : Song} {emax : Option Int} {out : List Song}
    (h : s ∈ emaxStep emax out) : s ∈ out := by
  cases emax with
  | none => exact h
  | some v => exact (List.mem_filter.mp h).1

/-- Membership in the output of the minimum-energy clause implies membership
in its input. -/
theorem mem_of_eminStep {s : Song} {emin : Option Int} {out : List Song}
    (h : s ∈ eminStep emin out) : s ∈ out := by
  cases emin with
  | none => exact h
  | some v => exact (List.mem_filter.mp h).1

/-- Membership in the output of the query clause implies membership in its
input. -/
theorem mem_of_qStep {s : Song} {q : Option String} {out : List Song}
    (h : s ∈ qStep q out) : s ∈ out := by
  cases q with
  | none => exact h
  | some qs =>
    rw [qStep] at h
    split at h
    · exact h
    · exact (List.mem_filter.mp h).1

/-- C10: the `"Any"` sentinel is recognized case-sensitively.  With
`language="Any"` the language clause is skipped entirely, so `filter_songs`
behaves exactly as with no language argument; any other casing of the
sentinel is treated as a literal language value matched case-insensitively,
so every record surviving the filter has a language that lowercases to
`"any"`. -/
theorem c10_any_sentinel_case_sensitive :
    (∀ (songs : List Song) (mood q : Option String) (emin emax : Option Int),
        filter_songs songs mood (some "Any") q emin emax =
          filter_songs songs mood none q emin emax) ∧
    (∀ lang : String, pyLower lang = "any" → lang ≠ "Any" →
      ∀ (songs : List Song) (mood q : Option String) (emin emax : Option Int)
        (s : Song), s ∈ filter_songs songs mood (some lang) q emin emax →
          pyLower s.language = "any") := by
  constructor
  · intro songs mood q emin emax
    rfl
  · intro lang hlow hAny songs mood q emin emax s hs
    have hne : ¬ lang = "" := by
      intro he
      rw [he] at hlow
      exact absurd hlow (by decide)
    have h1 : s ∈ filteredOut songs mood (some lang) q emin emax := by
      rw [filter_songs, sortByMood] at hs
      split at hs
      · exact (List.mem_insertionSort _).mp hs
      · exact (List.mem_insertionSort _).mp hs
    have h4 : s ∈ languageStep (some lang) (moodStep mood songs) :=
      mem_of_qStep (mem_of_eminStep (mem_of_emaxStep h1))
    rw [languageStep, if_neg (by exact fun hc => hc.elim hne hAny)] at h4
    have hpred := List.of_mem_filter h4
    have : pyLower s.language = pyLower lang := by
      exact eq_of_beq hpred
    rw [this, hlow]

/-- A record whose language is the word "any" in yet another casing, used to
witness C10. -/
def songAnyLang : Song :=
  { title := "Gamma", artist := "g", mood := "Calm", energy := 2,
    language := "aNy", link := "" }

/-- Witness for C10 at the concrete casing `"ANY"`: the record with language
`"aNy"` survives the filter and its language lowercases to `"any"`. -/
theorem c10_witness :
    pyLower "ANY" = "any" ∧ "ANY" ≠ "Any" ∧ pyLower songAnyLang.language = "any" :=
  ⟨by decide, by decide,
   c10_any_sentinel_case_sensitive.2 "ANY" (by decide) (by decide)
     [songAnyLang] none none none none songAnyLang (by decide)⟩

/-! ### C7 — invalid submissions are rejected before any write -/

/-- C7: a submission whose title is empty after trimming, or whose
normalized mood (stripped then capitalized) lies outside the tracked mood
set, is rejected before any write: `save_song` is never reached, the durable
store is returned unchanged (so its record count is unchanged) and no
partial record is persisted. -/
theorem c7_invalid_submission_rejected (f : SongForm) (st : Option Store)
    (h : pyStrip (pyOr f.title "") = "" ∨
      pyCapitalize (pyStrip (pyOr f.mood "")) ∉ MOODS) :
    add_song f st = (st, AddOutcome.rejected) := by
  rcases h with h | h
  · simp only [add_song]
    rw [if_pos (Or.inl h)]
  · simp only [add_song]
    rw [if_pos (Or.inr (Or.inr h))]

/-- The spec's example submission `{title:"", mood:"Happy"}`. -/
def emptyTitleForm : SongForm :=
  { title := some "", artist := some "A", mood := some "Happy",
    energy := some "3", language := some "English", link := none }

/-- Witness for C7: the empty-title submission leaves a concrete store
untouched and is rejected. -/
theorem c7_witness :
    pyStrip (pyOr emptyTitleForm.title "") = "" ∧
      add_song emptyTitleForm (some []) = (some [], AddOutcome.rejected) :=
  ⟨by decide,
   c7_invalid_submission_rejected emptyTitleForm (some []) (Or.inl (by decide))⟩

/-! ### C8 — malformed energy bounds in the recommendation request -/

/-- A record that violates the claimed independent `emax` bound. -/
def songE5 : Song :=
  { title := "Loud", artist := "l", mood := "Happy", energy := 5,
    language := "English", link := "" }

/-- A record satisfying the claimed independent `emax` bound. -/
def songE1 : Song :=
  { title := "Quiet", artist := "m", mood := "Happy", energy := 1,
    language := "English", link := "" }

/-- C8 fails on the code: the two conversions sit in a single
`try/except ValueError` whose handler resets both bounds, so a malformed
`emin` also discards a valid `emax`.  With `emin="abc"` and `emax="4"` both
bounds become absent and the energy-5 record — which the independently
applied `emax=4` would have excluded — still appears in the results. -/
theorem c8_counterexample :
    parseEnergyBounds (some "abc") (some "4") = (none, none) ∧
      songE5 ∈ homeResults [songE5, songE1] (some "Happy") none none
        (some "abc") (some "4") ∧
      ¬ songE5.energy ≤ 4 :=
  ⟨by decide, by decide, by decide⟩

/-- C8 (amended): a malformed `emin` or `emax` never raises an error out of
the handler — but the two values are not independent: when both parse, both
bounds are applied; when either truthy value fails to parse, the shared
exception handler resets both bounds to absent. -/
theorem c8_bounds_parsed_jointly :
    (∀ (e1 e2 : String) (v1 v2 : Int), pyInt e1 = some v1 → pyInt e2 = some v2 →
        parseEnergyBounds (some e1) (some e2) = (some v1, some v2)) ∧
    (∀ (e1 : String) (e2 : Option String), ¬ e1 = "" → pyInt e1 = none →
        parseEnergyBounds (some e1) e2 = (none, none)) ∧
    (∀ (e1 : Option String) (e2 : String), ¬ e2 = "" → pyInt e2 = none →
        parseEnergyBounds e1 (some e2) = (none, none)) := by
  refine ⟨?_, ?_, ?_⟩
  · intro e1 e2 v1 v2 h1 h2
    have he1 : ¬ e1 = "" := by
      intro h; rw [h] at h1; exact Option.noConfusion h1
    have he2 : ¬ e2 = "" := by
      intro h; rw [h] at h2; exact Option.noConfusion h2
    simp [parseEnergyBounds, convArg, he1, he2, h1, h2]
  · intro e1 e2 he1 h1
    simp [parseEnergyBounds, convArg, he1, h1]
  · intro e1 e2 he2 h2
    cases e1 with
    | none => simp [parseEnergyBounds, convArg, he2, h2]
    | some s =>
      by_cases hs : s = ""
      · simp [parseEnergyBounds, convArg, hs, he2, h2]
      · cases hp : pyInt s with
        | none => simp [parseEnergyBounds, convArg, hs, hp]
        | some v => simp [parseEnergyBounds, convArg, hs, hp, he2, h2]

/-- Witness for C8's amended theorem at concrete bound strings. -/
theorem c8_witness :
    parseEnergyBounds (some "2") (some "4") = (some 2, some 4) ∧
      parseEnergyBounds (some "abc") (some "5") = (none, none) ∧
      parseEnergyBounds (some "2") (some "xyz") = (none, none) :=
  ⟨c8_bounds_parsed_jointly.1 "2" "4" 2 4 (by decide) (by decide),
   c8_bounds_parsed_jointly.2.1 "abc" (some "5") (by decide) (by decide),
   c8_bounds_parsed_jointly.2.2 (some "2") "xyz" (by decide) (by decide)⟩

/-! ### C4 — mood-dependent sort direction and stability -/

/-- The ordering the final sort of `filter_songs` establishes: descending
energy for the two high-energy moods, ascending energy otherwise. -/
def sortRel (mood : Option String) : Song → Song → Prop :=
  if moodHigh mood then descRel else ascRel

/-- Stability of the stable sort with respect to the energy key: for any
ordering that holds between records of equal energy, sorting leaves the
subsequence of records with any fixed energy unchanged. -/
theorem filter_insertionSort_energy (r : Song → Song → Prop) [DecidableRel r]
    (hr : ∀ a b : Song, a.energy = b.energy → r a b) (l : List Song) (e : Int) :
    (List.insertionSort r l).filter (fun s => s.energy == e) =
      l.filter (fun s => s.energy == e) := by
  have hall : ∀ a ∈ l.filter (fun s : Song => s.energy == e),
      (fun s : Song => s.energy == e) a = true :=
    fun a ha => (List.mem_filter.mp ha).2
  have hpair : (l.filter (fun s : Song => s.energy == e)).Pairwise r := by
    apply List.pairwise_of_forall_mem_list
    intro a ha b hb
    apply hr
    have h1 : a.energy = e := by simpa using (List.mem_filter.mp ha).2
    have h2 : b.energy = e := by simpa using (List.mem_filter.mp hb).2
    rw [h1, h2]
  have hsub : List.Sublist (l.filter (fun s : Song => s.energy == e))
      (List.insertionSort r l) :=
    List.sublist_insertionSort hpair (List.filter_sublist l)
  have hsub2 : List.Sublist (l.filter (fun s : Song => s.energy == e))
      ((List.insertionSort r l).filter (fun s : Song => s.energy == e)) := by
    have h := hsub.filter (fun s : Song => s.energy == e)
    rwa [List.filter_eq_self.mpr hall] at h
  have hperm : ((List.insertionSort r l).filter (fun s : Song => s.energy == e)).Perm
      (l.filter (fun s : Song => s.energy == e)) :=
    (List.perm_insertionSort r l).filter _
  exact (hsub2.eq_of_length hperm.length_eq.symm).symm

/-- C4: for every input and argument combination, the output of
`filter_songs` is sorted by energy descending when the given mood is the
literal `"Energetic"` or `"Happy"` and ascending otherwise (including an
absent mood), and the sort is stable: for every energy value, the records
carrying it appear in the output in exactly their relative order in the
filtered input. -/
theorem c4_sort_direction_and_stability (songs : List Song)
    (mood language q : Option String) (emin emax : Option Int) :
    (filter_songs songs mood language q emin emax).Sorted (sortRel mood) ∧
    ∀ e : Int,
      (filter_songs songs mood language q emin emax).filter (fun s => s.energy == e) =
        (filteredOut songs mood language q emin emax).filter (fun s => s.energy == e) := by
  constructor
  · rw [filter_songs, sortByMood]
    unfold sortRel
    cases hm : moodHigh mood with
    | true => simp only [hm, if_true]; exact List.sorted_insertionSort descRel _
    | false => simp only [hm, Bool.false_eq_true, if_false]
               exact List.sorted_insertionSort ascRel _
  · intro e
    rw [filter_songs, sortByMood]
    cases hm : moodHigh mood with
    | true =>
      simp only [hm, if_true]
      exact filter_insertionSort_energy descRel
        (fun a b h => show b.energy ≤ a.energy from le_of_eq h.symm) _ e
    | false =>
      simp only [hm, Bool.false_eq_true, if_false]
      exact filter_insertionSort_energy ascRel
        (fun a b h => show a.energy ≤ b.energy from le_of_eq h) _ e

/-! ### C2 — energy of loaded records -/

/-- A stored row whose energy cell holds an out-of-range integer literal. -/
def row99 : StoredRow :=
  { title := "Overdrive", artist := "x", mood := "Happy", energy := "99",
    language := "English", link := "" }

/-- C2 fails on the code: `load_songs` repairs only *unparseable* energy
cells; a parseable out-of-range literal such as `"99"` is kept verbatim, so
the loaded record's energy is 99, outside `{1,2,3,4,5}`. -/
theorem c2_counterexample :
    ∃ s ∈ (load_songs (some [row99])).2,
      ¬ (1 ≤ s.energy ∧ s.energy ≤ 5) := by
  refine ⟨loadedSong row99, ?_, by decide⟩
  have h : ((load_songs (some [row99])).2).head? = some (loadedSong row99) := rfl
  exact List.mem_of_mem_head? (Option.mem_def.mpr h)

/-- C2 (amended): every row of the loaded store with a non-empty title and
mood is loaded (never dropped), and its energy is the integer parse of the
stored cell when that parse succeeds and the repair default 3 when it does
not; energies are therefore not clamped to `[1,5]` for arbitrary backing
content. -/
theorem c2_energy_parsed_or_repaired (st : Option Store) (r : StoredRow)
    (hr : r ∈ (load_songs st).1) (ht : ¬ r.title = "") (hm : ¬ r.mood = "") :
    loadedSong r ∈ (load_songs st).2 ∧
      (pyInt r.energy = none → (loadedSong r).energy = 3) ∧
      ∀ v : Int, pyInt r.energy = some v → (loadedSong r).energy = v := by
  refine ⟨?_, ?_, ?_⟩
  · have hl : loadRow r = some (loadedSong r) := by
      rw [loadRow, if_neg]
      exact fun hc => hc.elim ht hm
    exact List.mem_filterMap.mpr ⟨r, hr, hl⟩
  · intro h
    simp [loadedSong, h]
  · intro v h
    simp [loadedSong, h]

/-- A stored row whose energy cell holds a non-numeric literal. -/
def rowBadEnergy : StoredRow :=
  { title := "Breeze", artist := "y", mood := "Calm", energy := "soft",
    language := "Hindi", link := "" }

/-- Witness for C2's amended theorem: the row with the unparseable energy
cell `"soft"` is kept and loads with energy 3. -/
theorem c2_witness :
    rowBadEnergy ∈ (load_songs (some [rowBadEnergy])).1 ∧
      pyInt rowBadEnergy.energy = none ∧
      loadedSong rowBadEnergy ∈ (load_songs (some [rowBadEnergy])).2 ∧
      (loadedSong rowBadEnergy).energy = 3 := by
  have hmem : rowBadEnergy ∈ (load_songs (some [rowBadEnergy])).1 := by decide
  have h := c2_energy_parsed_or_repaired (some [rowBadEnergy]) rowBadEnergy hmem
    (by decide) (by decide)
  exact ⟨hmem, by decide, h.1, h.2.1 (by decide)⟩

/-! ### C3 — writes performed by load -/

/-- C3 fails on the code: the first statement of `load_songs` is a call to
`ensure_dataset()`, which writes whenever the catalog misses its coverage
targets.  Loading from an existing but empty store leaves the durable state
holding 100 generated rows, not the original empty sequence. -/
theorem c3_counterexample :
    (load_songs (some ([] : Store))).1 ≠ ([] : Store) := by
  decide

/-- C3 (amended): `load_songs` performs no writes of its own beyond first
invoking `ensure_dataset`; whenever every tracked language already meets the
default minimum of 20 records, the durable store is exactly as it was before
the call. -/
theorem c3_load_readonly_when_covered (rows : Store)
    (h : ∀ lang ∈ LANGUAGES, 20 ≤ countLang lang rows) :
    (load_songs (some rows)).1 = rows := by
  show ensure_dataset 20 (some rows) = rows
  have hE := Nat.not_lt.mpr (h "English" (by simp [LANGUAGES]))
  have hT := Nat.not_lt.mpr (h "Telugu" (by simp [LANGUAGES]))
  have hH := Nat.not_lt.mpr (h "Hindi" (by simp [LANGUAGES]))
  have hTa := Nat.not_lt.mpr (h "Tamil" (by simp [LANGUAGES]))
  have hM := Nat.not_lt.mpr (h "Malayalam" (by simp [LANGUAGES]))
  simp [ensure_dataset, LANGUAGES, hE, hT, hH, hTa, hM]

/-- A store holding 20 records for each tracked language. -/
def coveredStore : Store :=
  (LANGUAGES.map (fun lang => List.replicate 20
    { title := "t", artist := "a", mood := "Happy", energy := "3",
      language := lang, link := "" })).flatten

/-- Witness for C3's amended theorem on a concrete fully covered store. -/
theorem c3_witness :
    (∀ lang ∈ LANGUAGES, 20 ≤ countLang lang coveredStore) ∧
      (load_songs (some coveredStore)).1 = coveredStore :=
  ⟨by decide, c3_load_readonly_when_covered coveredStore (by decide)⟩

/-! ### C5 — idempotence of the catalog coverage check -/

/-- The per-language count distributes over append. -/
theorem countLang_append (lang : String) (a b : Store) :
    countLang lang (a ++ b) = countLang lang a + countLang lang b :=
  List.countP_append _ _ _

/-- Every row generated for a language carries exactly that language, so the
persisted filler contributes its full count there and nothing elsewhere. -/
theorem countLang_generate (lang language : String) (n : Nat) :
    countLang lang ((generate_language_rows language n).map storeRow) =
      if language = lang then n else 0 := by
  rw [countLang, generate_language_rows, List.map_map, List.countP_map]
  have hfun : ((fun r : StoredRow => r.language == lang) ∘
      (storeRow ∘ fun k => generatedRow language (k + 1))) =
      fun _ : Nat => language == lang := rfl
  rw [hfun]
  by_cases hl : language = lang
  · rw [if_pos hl]
    rw [List.countP_eq_length.mpr (fun k _ => by simp [hl]), List.length_range]
  · rw [if_neg hl]
    rw [List.countP_eq_zero.mpr (fun k _ => by simp [hl])]

/-- Unfolding of the creation branch into its five generated blocks. -/
theorem createdRows_expand (m : Nat) :
    createdRows m =
      BASE_SAMPLE_ROWS.map storeRow ++
        ((generate_language_rows "Telugu" m).map storeRow ++
         ((generate_language_rows "Hindi" m).map storeRow ++
          ((generate_language_rows "Tamil" m).map storeRow ++
           ((generate_language_rows "Malayalam" m).map storeRow ++
            ((generate_language_rows "English" m).map storeRow ++ []))))) := rfl

/-- After first creation every tracked language holds at least the minimum. -/
theorem countLang_createdRows (m : Nat) (lang : String) (hl : lang ∈ LANGUAGES) :
    m ≤ countLang lang (createdRows m) := by
  rw [createdRows_expand]
  simp only [countLang_append, countLang_generate]
  fin_cases hl <;> simp <;> omega

/-- Unfolding of the top-up branch into its five deficit blocks. -/
theorem ensure_some_expand (m : Nat) (rows : Store) :
    ensure_dataset m (some rows) =
      rows ++
        ((if countLang "English" rows < m then
            (generate_language_rows "English" (m - countLang "English" rows)).map storeRow
          else []) ++
         ((if countLang "Telugu" rows < m then
             (generate_language_rows "Telugu" (m - countLang "Telugu" rows)).map storeRow
           else []) ++
          ((if countLang "Hindi" rows < m then
              (generate_language_rows "Hindi" (m - countLang "Hindi" rows)).map storeRow
            else []) ++
           ((if countLang "Tamil" rows < m then
               (generate_language_rows "Tamil" (m - countLang "Tamil" rows)).map storeRow
             else []) ++
            ((if countLang "Malayalam" rows < m then
                (generate_language_rows "Malayalam"
                  (m - countLang "Malayalam" rows)).map storeRow
              else []) ++ []))))) := rfl

/-- The count of the empty store. -/
theorem countLang_nil (lang : String) : countLang lang ([] : Store) = 0 :=
  List.countP_nil _

/-- The contribution of one conditional deficit block to a language count. -/
theorem countLang_block (lang language : String) (m c : Nat) :
    countLang lang
      (if c < m then (generate_language_rows language (m - c)).map storeRow
       else []) =
      if language = lang then (if c < m then m - c else 0) else 0 := by
  by_cases h : c < m
  · rw [if_pos h, countLang_generate]
    by_cases hl : language = lang
    · rw [if_pos hl, if_pos hl, if_pos h]
    · rw [if_neg hl, if_neg hl]
  · rw [if_neg h]
    by_cases hl : language = lang
    · rw [if_pos hl, if_neg h, countLang_nil]
    · rw [if_neg hl, countLang_nil]

/-- After a top-up run every tracked language holds at least the minimum:
the appended block for a deficient language holds exactly its deficit. -/
theorem countLang_ensure_some (m : Nat) (rows : Store) (lang : String)
    (hl : lang ∈ LANGUAGES) :
    m ≤ countLang lang (ensure_dataset m (some rows)) := by
  rw [ensure_some_expand]
  simp only [countLang_append, countLang_block, countLang_nil]
  fin_cases hl <;> simp <;> split <;> omega

/-- A second coverage pass over an already covered store appends nothing. -/
theorem ensure_covered_eq (m : Nat) (rows : Store)
    (h : ∀ lang ∈ LANGUAGES, m ≤ countLang lang rows) :
    ensure_dataset m (some rows) = rows := by
  have hE := Nat.not_lt.mpr (h "English" (by simp [LANGUAGES]))
  have hT := Nat.not_lt.mpr (h "Telugu" (by simp [LANGUAGES]))
  have hH := Nat.not_lt.mpr (h "Hindi" (by simp [LANGUAGES]))
  have hTa := Nat.not_lt.mpr (h "Tamil" (by simp [LANGUAGES]))
  have hM := Nat.not_lt.mpr (h "Malayalam" (by simp [LANGUAGES]))
  simp [ensure_dataset, LANGUAGES, hE, hT, hH, hTa, hM]

/-- C5: `ensure_dataset` is idempotent.  After one run, every tracked
language counts at least the configured minimum; a second run in succession
leaves the durable state exactly as the first left it (no additional
writes); and the top-up over an existing catalog only appends — the
pre-existing rows survive as an unchanged prefix. -/
theorem c5_ensure_dataset_idempotent (m : Nat) (st : Option Store) :
    (∀ lang ∈ LANGUAGES, m ≤ countLang lang (ensure_dataset m st)) ∧
      ensure_dataset m (some (ensure_dataset m st)) = ensure_dataset m st ∧
      ∀ rows : Store, st = some rows →
        ∃ extra, ensure_dataset m st = rows ++ extra := by
  have hcov : ∀ lang ∈ LANGUAGES, m ≤ countLang lang (ensure_dataset m st) := by
    cases st with
    | none => exact fun lang hl => countLang_createdRows m lang hl
    | some rows => exact fun lang hl => countLang_ensure_some m rows lang hl
  refine ⟨hcov, ensure_covered_eq m _ hcov, ?_⟩
  intro rows hrows
  subst hrows
  exact ⟨_, rfl⟩

/-- Witness for C5 at a concrete minimum and store: coverage after a run,
idempotence of a second run, and prefix preservation of the input. -/
theorem c5_witness :
    "English" ∈ LANGUAGES ∧
      2 ≤ countLang "English" (ensure_dataset 2 (some [rowBadEnergy])) ∧
      ensure_dataset 2 (some (ensure_dataset 2 (some [rowBadEnergy]))) =
        ensure_dataset 2 (some [rowBadEnergy]) ∧
      ∃ extra, ensure_dataset 2 (some [rowBadEnergy]) = [rowBadEnergy] ++ extra :=
  ⟨by decide,
   (c5_ensure_dataset_idempotent 2 (some [rowBadEnergy])).1 "English" (by decide),
   (c5_ensure_dataset_idempotent 2 (some [rowBadEnergy])).2.1,
   (c5_ensure_dataset_idempotent 2 (some [rowBadEnergy])).2.2 [rowBadEnergy] rfl⟩

/-! ### C6 — the seeder's generation contract -/

/-- Default record used only as the `getD` fallback in statements. -/
def dummySong : Song := ⟨"", "", "", 0, "", ""⟩

/-- Count of indices below `n` in a fixed residue class modulo 5. -/
theorem countP_range_mod (j : Nat) (hj : j < 5) (n : Nat) :
    (List.range n).countP (fun k => k % 5 == j) = (n + 4 - j) / 5 := by
  induction n with
  | zero =>
    simp
    omega
  | succ n ih =>
    rw [List.range_succ, List.countP_append, ih]
    by_cases hm : n % 5 = j
    · simp [List.countP_cons, hm]
      omega
    · simp [List.countP_cons, hm]
      omega

/-- Distinctness of the mood list entries, as a decidable fact. -/
theorem moods_getD_inj :
    ∀ a, a < 5 → ∀ b, b < 5 →
      (MOODS.getD a "" == MOODS.getD b "") = (a == b) := by decide

/-- The mood of the generated row at 0-based index `k` is the `(k mod 5)`-th
mood. -/
theorem generatedRow_mood (language : String) (k : Nat) :
    (generatedRow language (k + 1)).mood = MOODS.getD (k % 5) "" := rfl

/-- Each mood index receives at least `⌊n / 5⌋` of the generated rows. -/
theorem countP_generate_mood (language : String) (n j : Nat) (hj : j < 5) :
    n / 5 ≤ (generate_language_rows language n).countP
      (fun s => s.mood == MOODS.getD j "") := by
  rw [generate_language_rows, List.countP_map]
  have hfun : ∀ k ∈ List.range n,
      ((fun s : Song => s.mood == MOODS.getD j "") ∘
        fun k => generatedRow language (k + 1)) k = (k % 5 == j) := by
    intro k _
    show ((generatedRow language (k + 1)).mood == MOODS.getD j "") = (k % 5 == j)
    rw [generatedRow_mood, moods_getD_inj (k % 5) (Nat.mod_lt k (by norm_num)) j hj]
  rw [List.countP_congr (fun k hk => by rw [hfun k hk])]
  rw [countP_range_mod j hj n]
  omega

/-- The fallback link always starts with the fixed results URL, hence is
non-empty. -/
theorem youtube_search_link_ne_empty (parts : List String) :
    ¬ youtube_search_link parts = "" := by
  intro h
  have h1 := congrArg String.length h
  rw [youtube_search_link, String.length_append] at h1
  have h2 : ("https://www.youtube.com/results?search_query=" : String).length = 45 := rfl
  have h3 : ("" : String).length = 0 := rfl
  omega

/-- C6: `generate_language_rows(language, n)` returns exactly `n` records;
the record at 0-based index `k` (1-based `i = k + 1`) has the
`((i - 1) mod |MOODS|)`-th mood and energy `((i mod 5) + 1)`; each mood of
the fixed list is used at least `⌊n / |MOODS|⌋` times; and every returned
record has a non-empty link. -/
theorem c6_generate_contract (language : String) (n : Nat) :
    (generate_language_rows language n).length = n ∧
    (∀ k, k < n →
      ((generate_language_rows language n).getD k dummySong).mood =
          MOODS.getD (k % MOODS.length) "" ∧
      ((generate_language_rows language n).getD k dummySong).energy =
          (((k + 1) % 5 : Nat) : Int) + 1) ∧
    (∀ mood ∈ MOODS, n / MOODS.length ≤
      (generate_language_rows language n).countP (fun s => s.mood == mood)) ∧
    (∀ s ∈ generate_language_rows language n, ¬ s.link = "") := by
  refine ⟨?_, ?_, ?_, ?_⟩
  · rw [generate_language_rows, List.length_map, List.length_range]
  · intro k hk
    have hg : (generate_language_rows language n).getD k dummySong =
        generatedRow language (k + 1) := by
      rw [generate_language_rows, List.getD_eq_getElem?_getD, List.getElem?_map,
        List.getElem?_range hk]
      rfl
    rw [hg]
    exact ⟨generatedRow_mood language k, rfl⟩
  · intro mood hm
    fin_cases hm
    · exact countP_generate_mood language n 0 (by norm_num)
    · exact countP_generate_mood language n 1 (by norm_num)
    · exact countP_generate_mood language n 2 (by norm_num)
    · exact countP_generate_mood language n 3 (by norm_num)
    · exact countP_generate_mood language n 4 (by norm_num)
  · intro s hs
    rw [generate_language_rows] at hs
    obtain ⟨k, _, rfl⟩ := List.mem_map.mp hs
    exact youtube_search_link_ne_empty _

/-- Witness for C6 at `language = "Hindi"`, `n = 7`: seven records, the
third record's mood and energy, the floor count for `"Sad"`, and the
non-empty link of the first record. -/
theorem c6_witness :
    ((generate_language_rows "Hindi" 7).getD 2 dummySong).mood =
        MOODS.getD (2 % MOODS.length) "" ∧
      ((generate_language_rows "Hindi" 7).getD 2 dummySong).energy =
        (((2 + 1) % 5 : Nat) : Int) + 1 ∧
      "Sad" ∈ MOODS ∧
      7 / MOODS.length ≤
        (generate_language_rows "Hindi" 7).countP (fun s => s.mood == "Sad") ∧
      ¬ ((generate_language_rows "Hindi" 7).getD 0 dummySong).link = "" :=
  ⟨((c6_generate_contract "Hindi" 7).2.1 2 (by norm_num)).1,
   ((c6_generate_contract "Hindi" 7).2.1 2 (by norm_num)).2,
   by decide,
   (c6_generate_contract "Hindi" 7).2.2.1 "Sad" (by decide),
   (c6_generate_contract "Hindi" 7).2.2.2 _ (by decide)⟩

end MoodSync
